import Mathlib

/-!
Verification of the Smart Self-Checkout backend (`main.py`, `schemas.py`).

The document store is modelled as four in-memory collections (`DB`), one per
Mongo collection used by the service.  Store-assigned object identifiers are
modelled as strings; each operation that inserts a document receives the fresh
identifier as an explicit argument (the store's id oracle).  Monetary amounts
(`price`, `subtotal`, `total`) are modelled as `ℚ`; quantities and stock as
`ℤ` (stock is decremented with no floor and may go negative).

Endpoints that mutate state return the (possibly partially) updated `DB`
together with the HTTP outcome, so that an exception raised part-way through a
handler (as in `checkout`'s per-item `oid` parse) leaves the mutations already
performed visible, exactly as in the Python code.
-/

/-- An HTTP error outcome: status code and detail string
(`HTTPException(status_code, detail)`). -/
abbrev Err := Nat × String

deriving instance DecidableEq for Except

/-- Lower-casing of a string, character by character (structurally recursive,
so that concrete instances evaluate inside proofs). -/
def lowerStr (s : String) : String :=
  String.mk (s.data.map Char.toLower)

/-- `schemas.CartItem`: a line item embedded in a cart or order. -/
structure CartItem where
  product_id : String
  title : String
  price : ℚ
  quantity : ℤ
  barcode : Option String
deriving DecidableEq, Repr

/-- A persisted `user` document. -/
structure StoredUser where
  id : String
  name : String
  email : String
  phone : Option String
  password : String
  role : String
  is_active : Bool
deriving DecidableEq, Repr

/-- A persisted `product` document. -/
structure StoredProduct where
  id : String
  title : String
  description : Option String
  price : ℚ
  barcode : Option String
  stock : ℤ
  category : Option String
  in_stock : Bool
deriving DecidableEq, Repr

/-- A persisted `cart` document. -/
structure StoredCart where
  id : String
  user_id : String
  items : List CartItem
  status : String
  subtotal : ℚ
deriving DecidableEq, Repr

/-- A persisted `order` document. -/
structure StoredOrder where
  id : String
  user_id : String
  cart_id : String
  items : List CartItem
  total : ℚ
  status : String
  payment_method : Option String
deriving DecidableEq, Repr

/-- The document store: the four collections used by the service. -/
structure DB where
  users : List StoredUser
  products : List StoredProduct
  carts : List StoredCart
  orders : List StoredOrder
deriving DecidableEq, Repr

/-- Pydantic validation of `schemas.CartItem` at construction time: the only
field constraint is `quantity: int = Field(1, ge=1)`; `price: float` carries
no bound. -/
def CartItem.validate (product_id title : String) (price : ℚ) (quantity : ℤ)
    (barcode : Option String) : Except String CartItem :=
  if quantity < 1 then
    .error "Input should be greater than or equal to 1"
  else
    .ok { product_id := product_id, title := title, price := price,
          quantity := quantity, barcode := barcode }

/-- A hexadecimal digit, as accepted by `bson.ObjectId`. -/
def isHexChar (c : Char) : Bool :=
  c.isDigit || ('a' ≤ c && c ≤ 'f') || ('A' ≤ c && c ≤ 'F')

/-- Validity of a string as a `bson.ObjectId`: exactly 24 hexadecimal
characters (case-insensitive). -/
def isValidOid (s : String) : Bool :=
  s.length == 24 && s.toList.all isHexChar

/-- `oid(id_str)` from `main.py`: parse an object id, raising
`HTTPException(400, "Invalid id")` on malformed input.  A parsed id is
normalised to lower case (ObjectId equality is on the underlying bytes, so
hex case does not matter). -/
def oidParse (s : String) : Except Err String :=
  if isValidOid s then .ok (lowerStr s) else .error (400, "Invalid id")

/-- `update_one`: apply `f` to the first element satisfying `p`, leaving the
rest of the collection unchanged. -/
def updateFirst {α : Type} (p : α → Bool) (f : α → α) : List α → List α
  | [] => []
  | x :: rest => if p x then f x :: rest else x :: updateFirst p f rest

/-- `db["cart"].find_one({"user_id": user_id, "status": "active"})`. -/
def findActiveCart (s : DB) (uid : String) : Option StoredCart :=
  s.carts.find? (fun c => c.user_id == uid && c.status == "active")

/-- `sum(i["price"] * i["quantity"] for i in items)`. -/
def subtotalOf (items : List CartItem) : ℚ :=
  items.foldl (fun acc i => acc + i.price * (i.quantity : ℚ)) 0

/-- The merge step of `cart_add`: scan the cart's items in order; on the first
item with the same `product_id`, increment its quantity by the payload's and
stop; if no item matches, append the payload as a new line. -/
def mergeItems : List CartItem → CartItem → List CartItem
  | [], it => [it]
  | ci :: rest, it =>
    if ci.product_id == it.product_id then
      { ci with quantity := ci.quantity + it.quantity } :: rest
    else
      ci :: mergeItems rest it

/-- Response body of `POST /cart/{user_id}/add`. -/
structure CartAddResponse where
  cart_id : String
  subtotal : ℚ
  items : List CartItem
deriving DecidableEq, Repr

/-- `POST /auth/login`: look up a user by exact email and plaintext password;
401 "Invalid credentials" on any mismatch. -/
def login (s : DB) (email password : String) :
    Except Err (String × String × String) :=
  match s.users.find? (fun u => u.email == email && u.password == password) with
  | none => .error (401, "Invalid credentials")
  | some u => .ok (u.id, u.role, u.name)

/-- `POST /cart/{user_id}/add`: find or lazily create the active cart, merge or
append the item, recompute the subtotal over all items, persist items and
subtotal back onto the cart, and return id, subtotal and items.
`freshId` is the store-assigned id used if a cart has to be created. -/
def cart_add (s : DB) (freshId uid : String) (item : CartItem) :
    DB × CartAddResponse :=
  let found := findActiveCart s uid
  let cart : StoredCart :=
    match found with
    | some c => c
    | none => { id := freshId, user_id := uid, items := [],
                status := "active", subtotal := 0 }
  let s1 : DB :=
    match found with
    | some _ => s
    | none => { s with carts := s.carts ++ [cart] }
  let newItems := mergeItems cart.items item
  let newSub := subtotalOf newItems
  let s2 : DB :=
    { s1 with
      carts := updateFirst (fun c => c.id == cart.id)
        (fun c => { c with items := newItems, subtotal := newSub }) s1.carts }
  (s2, { cart_id := cart.id, subtotal := newSub, items := newItems })

/-- The stock-decrement loop of `checkout`: for each item in order,
`oid(i["product_id"])` is parsed (raising 400 "Invalid id" and abandoning the
rest of the loop on malformed input), then the first product with that id has
its stock decremented by the item's quantity, with no non-negativity floor. -/
def decStocks : DB → List CartItem → DB × Option Err
  | s, [] => (s, none)
  | s, i :: rest =>
    if isValidOid i.product_id then
      decStocks
        { s with
          products := updateFirst (fun p => p.id == lowerStr i.product_id)
            (fun p => { p with stock := p.stock - i.quantity }) s.products }
        rest
    else
      (s, some (400, "Invalid id"))

/-- `POST /checkout/{user_id}`: 400 "Cart is empty" if the active cart is
missing or has no items; otherwise insert a pending "gpay" order copying the
cart's items and total, decrement each referenced product's stock, and mark
the cart "checked_out".  The order is inserted before the stock loop runs, so
a malformed `product_id` leaves the order (and earlier decrements) behind. -/
def checkout (s : DB) (freshId uid : String) : DB × Except Err (String × ℚ) :=
  match findActiveCart s uid with
  | none => (s, .error (400, "Cart is empty"))
  | some cart =>
    if cart.items = [] then
      (s, .error (400, "Cart is empty"))
    else
      let total := subtotalOf cart.items
      let s1 : DB :=
        { s with
          orders := s.orders ++
            [{ id := freshId, user_id := uid, cart_id := cart.id,
               items := cart.items, total := total, status := "pending",
               payment_method := some "gpay" }] }
      match decStocks s1 cart.items with
      | (s2, some e) => (s2, .error e)
      | (s2, none) =>
        ({ s2 with
           carts := updateFirst (fun c => c.id == cart.id)
             (fun c => { c with status := "checked_out" }) s2.carts },
         .ok (freshId, total))

/-- `POST /pay/gpay/{order_id}`: parse the id (400 on malformed), 404 if no
order has it, otherwise unconditionally set the order's status to "paid" and
report success. -/
def pay_gpay (s : DB) (order_id : String) : DB × Except Err String :=
  match oidParse order_id with
  | .error e => (s, .error e)
  | .ok v =>
    match s.orders.find? (fun o => o.id == v) with
    | none => (s, .error (404, "Order not found"))
    | some o =>
      ({ s with
         orders := updateFirst (fun x => x.id == o.id)
           (fun x => { x with status := "paid" }) s.orders },
       .ok "success")

/-- `POST /receipt/send`: parse the order id (400 on malformed), 404 if the
order does not exist, otherwise acknowledge with "queued", echoing email
(preferred) or phone and the order id. -/
def send_receipt (s : DB) (order_id : String) (email phone : Option String) :
    Except Err (String × Option String × String × String) :=
  match oidParse order_id with
  | .error e => .error e
  | .ok v =>
    match s.orders.find? (fun o => o.id == v) with
    | none => .error (404, "Order not found")
    | some _ =>
      .ok ("queued", (email.orElse (fun _ => phone)), order_id,
        "Receipt will be sent shortly")

/-- Response of `GET /manager/stats`. -/
structure Stats where
  total_items : Nat
  sold_items : ℤ
  remaining_items : ℤ
  daily_revenue : ℚ
deriving DecidableEq, Repr

/-- A `$group` stage with `_id: None` summing integers: no output document on
empty input, otherwise a single document holding the sum. -/
def groupSumInt (xs : List ℤ) : List ℤ :=
  if xs = [] then [] else [xs.foldl (fun a b => a + b) 0]

/-- A `$group` stage with `_id: None` summing rationals. -/
def groupSumRat (xs : List ℚ) : List ℚ :=
  if xs = [] then [] else [xs.foldl (fun a b => a + b) 0]

/-- The Python `x = d; for r in rows: x = r` consumption of an aggregation
cursor: the last row if any, else the default. -/
def lastOr {α : Type} (d : α) (l : List α) : α :=
  l.foldl (fun _ x => x) d

/-- `GET /manager/stats`: product count; quantities summed over the unwound
items of pending-or-paid orders; stock summed over all products; totals
summed over paid orders; each defaulting to 0 when its pipeline is empty. -/
def manager_stats (s : DB) : Stats :=
  let sold := groupSumInt
    (((s.orders.filter (fun o => o.status == "pending" || o.status == "paid")).flatMap
        (fun o => o.items)).map (fun i => i.quantity))
  let remaining := groupSumInt (s.products.map (fun p => p.stock))
  let revenue := groupSumRat
    ((s.orders.filter (fun o => o.status == "paid")).map (fun o => o.total))
  { total_items := s.products.length
    sold_items := lastOr 0 sold
    remaining_items := lastOr 0 remaining
    daily_revenue := lastOr 0 revenue }

/-- Total quantity a list of cart items charges against the product id `pid`
(the cumulative decrement that `decStocks` applies to that product). -/
def qtyFor (pid : String) (items : List CartItem) : ℤ :=
  ((items.filter (fun i => pid == lowerStr i.product_id)).map
    (fun i => i.quantity)).sum

/-! ### Helper lemmas about the store primitives -/

lemma updateFirst_nil {α : Type} (p : α → Bool) (f : α → α) :
    updateFirst p f [] = [] := rfl

lemma updateFirst_cons {α : Type} (p : α → Bool) (f : α → α) (x : α) (l : List α) :
    updateFirst p f (x :: l) =
      if p x then f x :: l else x :: updateFirst p f l := rfl

/-- When at most one element carries the key (the keys are `Nodup`),
`update_one` behaves like a pointwise conditional map. -/
lemma updateFirst_eq_map {α : Type} (key : α → String) (k : String) (f : α → α) :
    ∀ l : List α, (l.map key).Nodup →
      updateFirst (fun x => key x == k) f l =
        l.map (fun x => if key x = k then f x else x) := by
  intro l
  induction l with
  | nil => intro _; rfl
  | cons a t ih =>
    intro hn
    rw [List.map_cons, List.nodup_cons] at hn
    rw [updateFirst_cons, List.map_cons]
    by_cases hk : key a = k
    · rw [if_pos (by simp [hk]), if_pos hk]
      have ht : t.map (fun x => if key x = k then f x else x) = t.map (fun x => x) := by
        apply List.map_congr_left
        intro x hx
        have hne : key x ≠ k := by
          intro he
          apply hn.1
          have hmem : key x ∈ t.map key := List.mem_map_of_mem key hx
          rwa [he, ← hk] at hmem
        rw [if_neg hne]
      rw [ht, List.map_id']
    · rw [if_neg (by simp [hk]), if_neg hk, ih hn.2]

/-- `updateFirst` preserves the multiset of keys when `f` does. -/
lemma map_key_updateFirst {α : Type} (key : α → String) (p : α → Bool) (f : α → α)
    (hf : ∀ x, key (f x) = key x) :
    ∀ l : List α, (updateFirst p f l).map key = l.map key := by
  intro l
  induction l with
  | nil => rfl
  | cons a t ih =>
    rw [updateFirst_cons]
    by_cases hp : p a
    · rw [if_pos hp, List.map_cons, List.map_cons, hf]
    · rw [if_neg hp, List.map_cons, List.map_cons, ih]

/-- Looking up the updated key after an `updateFirst` that preserves the
predicate finds the updated element. -/
lemma find?_updateFirst {α : Type} (p : α → Bool) (f : α → α)
    (hf : ∀ x, p (f x) = p x) :
    ∀ l : List α, (updateFirst p f l).find? p = (l.find? p).map f := by
  intro l
  induction l with
  | nil => rfl
  | cons a t ih =>
    rw [updateFirst_cons]
    by_cases hp : p a = true
    · rw [if_pos hp, List.find?_cons_of_pos _ (by rw [hf]; exact hp),
        List.find?_cons_of_pos _ hp, Option.map_some']
    · rw [if_neg hp, List.find?_cons_of_neg _ hp, List.find?_cons_of_neg _ hp, ih]

/-- Applying the same idempotent `updateFirst` twice is the same as once. -/
lemma updateFirst_idem {α : Type} (p : α → Bool) (f : α → α)
    (hp : ∀ x, p (f x) = p x) (hf : ∀ x, f (f x) = f x) :
    ∀ l : List α, updateFirst p f (updateFirst p f l) = updateFirst p f l := by
  intro l
  induction l with
  | nil => rfl
  | cons a t ih =>
    rw [updateFirst_cons]
    by_cases hpa : p a = true
    · rw [if_pos hpa, updateFirst_cons, if_pos (by rw [hp]; exact hpa), hf]
    · rw [if_neg hpa, updateFirst_cons, if_neg hpa, ih]

/-- `updateFirst` skips a whole segment on which the predicate fails. -/
lemma updateFirst_append_of_none {α : Type} (p : α → Bool) (f : α → α)
    (l1 l2 : List α) (h : ∀ x ∈ l1, p x = false) :
    updateFirst p f (l1 ++ l2) = l1 ++ updateFirst p f l2 := by
  induction l1 with
  | nil => rfl
  | cons a t ih =>
    rw [List.cons_append, updateFirst_cons,
      if_neg (by rw [h a (List.mem_cons_self a t)]; exact Bool.false_ne_true),
      ih (fun x hx => h x (List.mem_cons_of_mem a hx)), List.cons_append]

lemma qtyFor_nil (pid : String) : qtyFor pid [] = 0 := rfl

lemma qtyFor_cons (pid : String) (i : CartItem) (rest : List CartItem) :
    qtyFor pid (i :: rest) =
      (if pid = lowerStr i.product_id then i.quantity else 0) + qtyFor pid rest := by
  by_cases h : pid = lowerStr i.product_id
  · rw [if_pos h]
    simp only [qtyFor, List.filter_cons, beq_iff_eq, if_pos h, List.map_cons, List.sum_cons]
  · rw [if_neg h, zero_add]
    simp only [qtyFor, List.filter_cons, beq_iff_eq, if_neg h]

/-- The product-collection effect of one stock-decrement step, in
pointwise-map form (when product ids are unique). -/
lemma decStep_eq_map (i : CartItem) (l : List StoredProduct)
    (hn : (l.map (fun p => p.id)).Nodup) :
    updateFirst (fun p => p.id == lowerStr i.product_id)
        (fun p => { p with stock := p.stock - i.quantity }) l =
      l.map (fun p =>
        { p with stock := p.stock -
            (if p.id = lowerStr i.product_id then i.quantity else 0) }) := by
  rw [updateFirst_eq_map (fun p => p.id) (lowerStr i.product_id) _ l hn]
  apply List.map_congr_left
  intro p _
  by_cases h : p.id = lowerStr i.product_id
  · rw [if_pos h, if_pos h]
  · rw [if_neg h, if_neg h, sub_zero]

/-- The product-collection effect of the whole stock loop, as a recursion on
the item list (`decStocks` restricted to the `product` collection). -/
def decProducts : List CartItem → List StoredProduct → List StoredProduct
  | [], l => l
  | i :: rest, l =>
    decProducts rest
      (updateFirst (fun p => p.id == lowerStr i.product_id)
        (fun p => { p with stock := p.stock - i.quantity }) l)

/-- `decProducts` preserves the sequence of product ids. -/
lemma decProducts_map_id :
    ∀ (items : List CartItem) (l : List StoredProduct),
      (decProducts items l).map (fun p => p.id) = l.map (fun p => p.id) := by
  intro items
  induction items with
  | nil => intro l; rfl
  | cons i rest ih =>
    intro l
    rw [decProducts, ih,
      map_key_updateFirst (fun p => p.id) (fun p => p.id == lowerStr i.product_id)
        (fun p => { p with stock := p.stock - i.quantity }) (fun x => rfl) l]

/-- With all product ids well formed, the stock loop succeeds and only the
`product` collection changes, as computed by `decProducts`. -/
lemma decStocks_eq_decProducts :
    ∀ (items : List CartItem) (s : DB),
      (∀ i ∈ items, isValidOid i.product_id = true) →
      decStocks s items = ({ s with products := decProducts items s.products }, none) := by
  intro items
  induction items with
  | nil => intro s _; rfl
  | cons i rest ih =>
    intro s hv
    have hvi : isValidOid i.product_id = true := hv i (List.mem_cons_self i rest)
    rw [decStocks, if_pos hvi,
      ih _ (fun j hj => hv j (List.mem_cons_of_mem i hj))]
    rfl

/-- When the items hit a malformed product id after a well-formed segment, the
stock loop stops with the "Invalid id" error, keeping the decrements already
applied for the segment. -/
lemma decStocks_fail_eq_decProducts :
    ∀ (pre : List CartItem) (bad : CartItem) (post : List CartItem) (s : DB),
      (∀ i ∈ pre, isValidOid i.product_id = true) →
      isValidOid bad.product_id = false →
      decStocks s (pre ++ bad :: post) =
        ({ s with products := decProducts pre s.products }, some (400, "Invalid id")) := by
  intro pre
  induction pre with
  | nil =>
    intro bad post s _ hbad
    rw [List.nil_append, decStocks, if_neg (by rw [hbad]; exact Bool.false_ne_true)]
    rfl
  | cons i rest ih =>
    intro bad post s hv hbad
    have hvi : isValidOid i.product_id = true := hv i (List.mem_cons_self i rest)
    rw [List.cons_append, decStocks, if_pos hvi,
      ih bad post _ (fun j hj => hv j (List.mem_cons_of_mem i hj)) hbad]
    rfl

/-- Closed form of the stock loop's effect when product ids are unique: every
product's stock drops by exactly the total quantity charged against its id,
and every other field is untouched. -/
lemma decProducts_eq_map :
    ∀ (items : List CartItem) (l : List StoredProduct),
      (l.map (fun p => p.id)).Nodup →
      decProducts items l =
        l.map (fun p => { p with stock := p.stock - qtyFor p.id items }) := by
  intro items
  induction items with
  | nil =>
    intro l _
    have hpt : ∀ p ∈ l,
        ({ p with stock := p.stock - qtyFor p.id [] } : StoredProduct) = p := by
      intro p _
      rw [qtyFor_nil, sub_zero]
    rw [List.map_congr_left hpt, List.map_id']
    rfl
  | cons i rest ih =>
    intro l hn
    rw [decProducts]
    have hn1 : ((updateFirst (fun p => p.id == lowerStr i.product_id)
        (fun p => { p with stock := p.stock - i.quantity }) l).map
          (fun p => p.id)).Nodup := by
      rw [map_key_updateFirst (fun p => p.id) (fun p => p.id == lowerStr i.product_id)
        (fun p => { p with stock := p.stock - i.quantity }) (fun x => rfl) l]
      exact hn
    rw [ih _ hn1, decStep_eq_map i l hn, List.map_map]
    apply List.map_congr_left
    intro p _
    by_cases hid : p.id = lowerStr i.product_id
    · simp only [Function.comp_apply, if_pos hid]
      show ({ p with stock := ((p.stock - i.quantity) - qtyFor p.id rest) } :
        StoredProduct) = _
      rw [qtyFor_cons, if_pos hid, sub_add_eq_sub_sub]
    · simp only [Function.comp_apply, if_neg hid]
      show ({ p with stock := ((p.stock - 0) - qtyFor p.id rest) } : StoredProduct) = _
      rw [sub_zero, qtyFor_cons, if_neg hid, zero_add]

/-- Merging into a cart with no line for the payload's product appends it. -/
lemma mergeItems_append (items : List CartItem) (item : CartItem)
    (h : ∀ x ∈ items, x.product_id ≠ item.product_id) :
    mergeItems items item = items ++ [item] := by
  induction items with
  | nil => rfl
  | cons a t ih =>
    rw [mergeItems,
      if_neg (by simp only [beq_iff_eq]; exact h a (List.mem_cons_self a t)),
      ih (fun x hx => h x (List.mem_cons_of_mem a hx)), List.cons_append]

/-- Merging into a cart whose first line for the payload's product is `ci`
increments exactly that line's quantity and keeps everything else. -/
lemma mergeItems_merge (pre : List CartItem) (ci : CartItem) (post : List CartItem)
    (item : CartItem) (hci : ci.product_id = item.product_id)
    (hpre : ∀ x ∈ pre, x.product_id ≠ item.product_id) :
    mergeItems (pre ++ ci :: post) item =
      pre ++ { ci with quantity := ci.quantity + item.quantity } :: post := by
  induction pre with
  | nil =>
    rw [List.nil_append, List.nil_append, mergeItems,
      if_pos (by simp only [beq_iff_eq]; exact hci)]
  | cons a t ih =>
    rw [List.cons_append, mergeItems,
      if_neg (by simp only [beq_iff_eq]; exact hpre a (List.mem_cons_self a t)),
      ih (fun x hx => hpre x (List.mem_cons_of_mem a hx)), List.cons_append]

/-- A list containing a line for `pid` splits at its first such line. -/
lemma exists_first_match (items : List CartItem) (pid : String)
    (h : ∃ ci ∈ items, ci.product_id = pid) :
    ∃ pre ci post, items = pre ++ ci :: post ∧ ci.product_id = pid ∧
      ∀ x ∈ pre, x.product_id ≠ pid := by
  induction items with
  | nil =>
    obtain ⟨ci, hmem, _⟩ := h
    exact absurd hmem (List.not_mem_nil ci)
  | cons a t ih =>
    by_cases ha : a.product_id = pid
    · exact ⟨[], a, t, rfl, ha, by intro x hx; exact absurd hx (List.not_mem_nil x)⟩
    · obtain ⟨ci, hmem, hpid⟩ := h
      rcases List.mem_cons.mp hmem with heq | hmem'
      · rw [heq] at hpid; exact absurd hpid ha
      · obtain ⟨pre, ci', post, h1, h2, h3⟩ := ih ⟨ci, hmem', hpid⟩
        refine ⟨a :: pre, ci', post, by rw [h1, List.cons_append], h2, ?_⟩
        intro x hx
        rcases List.mem_cons.mp hx with heq | hx'
        · rw [heq]; exact ha
        · exact h3 x hx'

/-- The stock loop with all ids well formed, in closed form. -/
lemma decStocks_ok (items : List CartItem) (s : DB)
    (hv : ∀ i ∈ items, isValidOid i.product_id = true)
    (hn : (s.products.map (fun p => p.id)).Nodup) :
    decStocks s items =
      ({ s with products := (s.products.map
          (fun p => { p with stock := p.stock - qtyFor p.id items })) }, none) := by
  rw [decStocks_eq_decProducts items s hv, decProducts_eq_map items s.products hn]

/-- The stock loop hitting a malformed id, in closed form. -/
lemma decStocks_fail (pre : List CartItem) (bad : CartItem) (post : List CartItem)
    (s : DB) (hv : ∀ i ∈ pre, isValidOid i.product_id = true)
    (hbad : isValidOid bad.product_id = false)
    (hn : (s.products.map (fun p => p.id)).Nodup) :
    decStocks s (pre ++ bad :: post) =
      ({ s with products := (s.products.map
          (fun p => { p with stock := p.stock - qtyFor p.id pre })) },
       some (400, "Invalid id")) := by
  rw [decStocks_fail_eq_decProducts pre bad post s hv hbad,
    decProducts_eq_map pre s.products hn]

/-- Consuming a single-sum aggregation cursor yields the list sum (0 when the
pipeline matched nothing). -/
lemma lastOr_groupSumInt (xs : List ℤ) : lastOr 0 (groupSumInt xs) = xs.sum := by
  by_cases h : xs = []
  · rw [h]; rfl
  · rw [groupSumInt, if_neg h]
    show xs.foldl (fun a b => a + b) 0 = xs.sum
    exact (List.sum_eq_foldl).symm

/-- Rational version of `lastOr_groupSumInt`. -/
lemma lastOr_groupSumRat (xs : List ℚ) : lastOr 0 (groupSumRat xs) = xs.sum := by
  by_cases h : xs = []
  · rw [h]; rfl
  · rw [groupSumRat, if_neg h]
    show xs.foldl (fun a b => a + b) 0 = xs.sum
    exact (List.sum_eq_foldl).symm

/-- Summing a function over an unwound (`flatMap`) list equals summing the
per-document sums. -/
lemma sum_map_flatMap {α β : Type} (l : List α) (f : α → List β) (g : β → ℤ) :
    ((l.flatMap f).map g).sum = (l.map (fun x => ((f x).map g).sum)).sum := by
  induction l with
  | nil => rfl
  | cons a t ih => simp [List.flatMap_cons, ih]

/-! ### Claim theorems -/

/-- C3: for a user with no active cart, or whose active cart has an empty
items list, checkout fails with the 400 "Cart is empty" precondition error and
the store is completely unchanged: no order is created, no stock moves and the
cart (if any) keeps its status. -/
theorem checkout_empty_precondition (s : DB) (fid uid : String)
    (h : findActiveCart s uid = none ∨
      ∃ cart, findActiveCart s uid = some cart ∧ cart.items = []) :
    checkout s fid uid = (s, .error (400, "Cart is empty")) := by
  rcases h with h | ⟨cart, hc, hempty⟩
  · simp only [checkout, h]
  · simp only [checkout, hc]
    rw [if_pos hempty]

def c3CartEmpty : StoredCart :=
  { id := "cccccccccccccccccccccccc", user_id := "u2", items := [],
    status := "active", subtotal := 0 }

def c3S : DB := { users := [], products := [], carts := [c3CartEmpty], orders := [] }

/-- Witness for C3, covering both the missing-cart and the empty-cart cases. -/
theorem checkout_empty_precondition_witness :
    (findActiveCart c3S "u9" = none) ∧
    (findActiveCart c3S "u2" = some c3CartEmpty ∧ c3CartEmpty.items = []) ∧
    checkout c3S "ffffffffffffffffffffffff" "u9" = (c3S, .error (400, "Cart is empty")) ∧
    checkout c3S "ffffffffffffffffffffffff" "u2" = (c3S, .error (400, "Cart is empty")) :=
  ⟨by rfl, ⟨by rfl, rfl⟩,
   checkout_empty_precondition c3S "ffffffffffffffffffffffff" "u9" (Or.inl (by rfl)),
   checkout_empty_precondition c3S "ffffffffffffffffffffffff" "u2"
     (Or.inr ⟨c3CartEmpty, by rfl, rfl⟩)⟩

/-- C7: manager stats reports daily_revenue as the summed total of exactly the
"paid" orders (pending excluded), sold_items as the summed item quantities of
"pending"-or-"paid" orders, remaining_items as the summed stock of all
products, and total_items as the product count; each sum is 0 when no
documents match (the sum over an empty list). -/
theorem manager_stats_correct (s : DB) :
    (manager_stats s).daily_revenue =
      ((s.orders.filter (fun o => o.status == "paid")).map (fun o => o.total)).sum ∧
    (manager_stats s).sold_items =
      ((s.orders.filter (fun o => o.status == "pending" || o.status == "paid")).map
        (fun o => (o.items.map (fun i => i.quantity)).sum)).sum ∧
    (manager_stats s).remaining_items = (s.products.map (fun p => p.stock)).sum ∧
    (manager_stats s).total_items = s.products.length := by
  refine ⟨?_, ?_, ?_, rfl⟩
  · show lastOr 0 (groupSumRat _) = _
    rw [lastOr_groupSumRat]
  · show lastOr 0 (groupSumInt _) = _
    rw [lastOr_groupSumInt, sum_map_flatMap]
  · show lastOr 0 (groupSumInt _) = _
    rw [lastOr_groupSumInt]

/-- C8: a login with a registered email but wrong password and a login with an
email belonging to no user produce the same observable outcome, the single
401 "Invalid credentials" failure, revealing nothing about whether the email
exists. -/
theorem login_indistinguishable (s : DB) (e1 p1 e2 p2 : String)
    (hreg : ∃ u ∈ s.users, u.email = e1)
    (h1 : ∀ u ∈ s.users, u.email = e1 → u.password ≠ p1)
    (h2 : ∀ u ∈ s.users, u.email ≠ e2) :
    login s e1 p1 = .error (401, "Invalid credentials") ∧
    login s e2 p2 = .error (401, "Invalid credentials") ∧
    login s e1 p1 = login s e2 p2 := by
  have hf1 : s.users.find? (fun u => u.email == e1 && u.password == p1) = none := by
    rw [List.find?_eq_none]
    intro u hu hb
    rw [Bool.and_eq_true, beq_iff_eq, beq_iff_eq] at hb
    exact h1 u hu hb.1 hb.2
  have hf2 : s.users.find? (fun u => u.email == e2 && u.password == p2) = none := by
    rw [List.find?_eq_none]
    intro u hu hb
    rw [Bool.and_eq_true, beq_iff_eq, beq_iff_eq] at hb
    exact h2 u hu hb.1
  refine ⟨?_, ?_, ?_⟩ <;> simp only [login, hf1, hf2]

def c8User : StoredUser :=
  { id := "111111111111111111111111", name := "Alice", email := "alice@example.com",
    phone := none, password := "pw1", role := "customer", is_active := true }

def c8S : DB := { users := [c8User], products := [], carts := [], orders := [] }

/-- Witness for C8: a wrong-password attempt against Alice's account and an
attempt with an unknown email are observably identical. -/
theorem login_indistinguishable_witness :
    (∃ u ∈ c8S.users, u.email = "alice@example.com") ∧
    (∀ u ∈ c8S.users, u.email = "alice@example.com" → u.password ≠ "wrong") ∧
    (∀ u ∈ c8S.users, u.email ≠ "bob@example.com") ∧
    login c8S "alice@example.com" "wrong" = .error (401, "Invalid credentials") ∧
    login c8S "bob@example.com" "pw1" = .error (401, "Invalid credentials") ∧
    login c8S "alice@example.com" "wrong" = login c8S "bob@example.com" "pw1" := by
  refine ⟨by decide, by decide, by decide, ?_⟩
  have h := login_indistinguishable c8S "alice@example.com" "wrong" "bob@example.com" "pw1"
    (by decide) (by decide) (by decide)
  exact ⟨h.1, h.2.1, h.2.2⟩

/-- C5 counterexample: a `CartItem` with a negative price is accepted at
construction (pydantic puts no bound on `CartItem.price`); no validation
failure is raised. -/
theorem cartItem_negative_price_accepted :
    CartItem.validate "p1" "Widget" (-1) 1 none =
      .ok { product_id := "p1", title := "Widget", price := -1, quantity := 1,
            barcode := none } := by rfl

/-- C5 amended: `CartItem` construction validates only `quantity ≥ 1`; a
negative price passes validation unchanged, so persisted cart line items may
carry a negative price. -/
theorem cartItem_validate_only_quantity (pid t : String) (pr : ℚ) (q : ℤ)
    (b : Option String) (hpr : pr < 0) (hq : 1 ≤ q) :
    CartItem.validate pid t pr q b =
      .ok { product_id := pid, title := t, price := pr, quantity := q, barcode := b } := by
  unfold CartItem.validate
  rw [if_neg (by omega)]

/-- Witness for the amended C5. -/
theorem cartItem_validate_only_quantity_witness :
    (-2 : ℚ) < 0 ∧ (1 : ℤ) ≤ 3 ∧
    CartItem.validate "p2" "Gadget" (-2) 3 none =
      .ok { product_id := "p2", title := "Gadget", price := -2, quantity := 3,
            barcode := none } :=
  ⟨by norm_num, by decide,
   cartItem_validate_only_quantity "p2" "Gadget" (-2) 3 none (by norm_num) (by decide)⟩

def c6Item : CartItem :=
  { product_id := "aaaaaaaaaaaaaaaaaaaaaaaa", title := "Pen", price := 2,
    quantity := 1, barcode := none }

def c6S : DB := { users := [], products := [], carts := [], orders := [] }

/-- C6 counterexample: `cart_add` takes the user identifier path parameter but
never parses it with `oid`; a value that is not 24-hex is used as-is for the
cart lookup and a cart keyed by it is created — no "Invalid id" error. -/
theorem cart_add_accepts_malformed_user_id :
    isValidOid "not-a-hex-id" = false ∧
    (cart_add c6S "eeeeeeeeeeeeeeeeeeeeeeee" "not-a-hex-id" c6Item).2.cart_id =
      "eeeeeeeeeeeeeeeeeeeeeeee" ∧
    (cart_add c6S "eeeeeeeeeeeeeeeeeeeeeeee" "not-a-hex-id" c6Item).1.carts =
      [{ id := "eeeeeeeeeeeeeeeeeeeeeeee", user_id := "not-a-hex-id",
         items := [c6Item], status := "active", subtotal := subtotalOf [c6Item] }] :=
  ⟨by decide, by rfl, by rfl⟩

/-- C6 amended: the endpoints that do parse an identifier with `oid` (pay and
receipt-send) reject any non-24-hex value with the 400 "Invalid id" client
error without touching the store; the user-id path parameters of the cart and
checkout endpoints, by contrast, are used unvalidated. -/
theorem oid_endpoints_reject_malformed (s : DB) (v : String) (e ph : Option String)
    (hv : isValidOid v = false) :
    pay_gpay s v = (s, .error (400, "Invalid id")) ∧
    send_receipt s v e ph = .error (400, "Invalid id") := by
  have hop : oidParse v = .error (400, "Invalid id") := by
    unfold oidParse
    rw [if_neg (by rw [hv]; exact Bool.false_ne_true)]
  exact ⟨by simp only [pay_gpay, hop], by simp only [send_receipt, hop]⟩

/-- Witness for the amended C6. -/
theorem oid_endpoints_reject_malformed_witness :
    isValidOid "zz" = false ∧
    pay_gpay c6S "zz" = (c6S, .error (400, "Invalid id")) ∧
    send_receipt c6S "zz" none none = .error (400, "Invalid id") :=
  ⟨by decide,
   (oid_endpoints_reject_malformed c6S "zz" none none (by decide)).1,
   (oid_endpoints_reject_malformed c6S "zz" none none (by decide)).2⟩

/-- C9: for any existing order, whatever its current status (including already
"paid"), pay succeeds, sets the order's status to "paid", touches no other
collection, and is idempotent: a second pay returns success and leaves the
store exactly as after the first. -/
theorem pay_gpay_idempotent (s : DB) (v : String) (o : StoredOrder)
    (hvalid : isValidOid v = true)
    (ho : s.orders.find? (fun x => x.id == lowerStr v) = some o) :
    (pay_gpay s v).2 = .ok "success" ∧
    (pay_gpay s v).1.orders.find? (fun x => x.id == lowerStr v) =
      some { o with status := "paid" } ∧
    (pay_gpay s v).1.users = s.users ∧
    (pay_gpay s v).1.products = s.products ∧
    (pay_gpay s v).1.carts = s.carts ∧
    pay_gpay (pay_gpay s v).1 v = ((pay_gpay s v).1, .ok "success") := by
  have hop : oidParse v = .ok (lowerStr v) := by
    unfold oidParse
    rw [if_pos hvalid]
  have hoid : o.id = lowerStr v := by
    have hp := List.find?_some ho
    rwa [beq_iff_eq] at hp
  rw [← hoid] at ho hop ⊢
  have hpay : pay_gpay s v =
      ({ s with orders := (updateFirst (fun x => x.id == o.id)
          (fun x => { x with status := "paid" }) s.orders) }, .ok "success") := by
    simp only [pay_gpay, hop, ho]
  have hfind2 : (updateFirst (fun x => x.id == o.id)
      (fun x => { x with status := "paid" }) s.orders).find?
        (fun x => x.id == o.id) = some { o with status := "paid" } := by
    rw [find?_updateFirst (fun x => x.id == o.id)
      (fun x => { x with status := "paid" }) (fun x => rfl) s.orders, ho,
      Option.map_some']
  refine ⟨by rw [hpay], by rw [hpay]; exact hfind2, by rw [hpay], by rw [hpay],
    by rw [hpay], ?_⟩
  rw [hpay]
  simp only [pay_gpay, hop, hfind2]
  rw [updateFirst_idem (fun x => x.id == o.id)
    (fun x => { x with status := "paid" }) (fun x => rfl) (fun x => rfl) s.orders]

def c9Order : StoredOrder :=
  { id := "abcdefabcdefabcdefabcdef", user_id := "u1",
    cart_id := "cccccccccccccccccccccccc", items := [], total := 0,
    status := "paid", payment_method := some "gpay" }

def c9S : DB := { users := [], products := [], carts := [], orders := [c9Order] }

/-- Witness for C9, on an order that is already "paid". -/
theorem pay_gpay_idempotent_witness :
    isValidOid "abcdefabcdefabcdefabcdef" = true ∧
    c9S.orders.find? (fun x => x.id == lowerStr "abcdefabcdefabcdefabcdef") =
      some c9Order ∧
    (pay_gpay c9S "abcdefabcdefabcdefabcdef").2 = .ok "success" ∧
    pay_gpay (pay_gpay c9S "abcdefabcdefabcdefabcdef").1 "abcdefabcdefabcdefabcdef" =
      ((pay_gpay c9S "abcdefabcdefabcdefabcdef").1, .ok "success") := by
  refine ⟨by decide, by rfl, ?_⟩
  have h := pay_gpay_idempotent c9S "abcdefabcdefabcdefabcdef" c9Order
    (by decide) (by rfl)
  exact ⟨h.1, h.2.2.2.2.2⟩

/-- `cart_add` when the user already has an active cart: merge into its items,
recompute the subtotal, write both back onto that cart. -/
lemma cart_add_found (s : DB) (fid uid : String) (item : CartItem)
    (cart : StoredCart) (hc : findActiveCart s uid = some cart) :
    cart_add s fid uid item =
      ({ s with carts := (updateFirst (fun c => c.id == cart.id)
          (fun c => { c with
            items := mergeItems cart.items item,
            subtotal := subtotalOf (mergeItems cart.items item) }) s.carts) },
       { cart_id := cart.id,
         subtotal := subtotalOf (mergeItems cart.items item),
         items := mergeItems cart.items item }) := by
  simp only [cart_add, hc]

/-- `cart_add` when the user has no active cart: a fresh cart is inserted and
then immediately updated with the single merged item. -/
lemma cart_add_missing (s : DB) (fid uid : String) (item : CartItem)
    (hc : findActiveCart s uid = none) (hfresh : ∀ c ∈ s.carts, c.id ≠ fid) :
    cart_add s fid uid item =
      ({ s with carts := s.carts ++
          [{ id := fid, user_id := uid, items := [item], status := "active",
             subtotal := subtotalOf [item] }] },
       { cart_id := fid, subtotal := subtotalOf [item], items := [item] }) := by
  simp only [cart_add, hc, mergeItems]
  rw [updateFirst_append_of_none _ _ s.carts _
    (fun c hcm => by rw [beq_eq_false_iff_ne]; exact hfresh c hcm)]
  rw [updateFirst_cons, if_pos (by rw [beq_iff_eq])]

/-- C10: when `cart_add` merges into an existing line (same `product_id`), only
that line's quantity changes: its stored product_id, title, price and barcode
survive even if the payload carries different values, every other line is
untouched, and the recomputed subtotal is computed over the stored lines (so
over the originally stored prices). -/
theorem cart_add_merge_frame (s : DB) (fid uid : String) (item : CartItem)
    (cart : StoredCart) (pre : List CartItem) (ci : CartItem) (post : List CartItem)
    (hc : findActiveCart s uid = some cart)
    (hsplit : cart.items = pre ++ ci :: post)
    (hci : ci.product_id = item.product_id)
    (hpre : ∀ x ∈ pre, x.product_id ≠ item.product_id) :
    (cart_add s fid uid item).2.items =
      pre ++ { ci with quantity := ci.quantity + item.quantity } :: post ∧
    (cart_add s fid uid item).2.items.map (fun i => i.product_id) =
      cart.items.map (fun i => i.product_id) ∧
    (cart_add s fid uid item).2.items.map (fun i => i.title) =
      cart.items.map (fun i => i.title) ∧
    (cart_add s fid uid item).2.items.map (fun i => i.price) =
      cart.items.map (fun i => i.price) ∧
    (cart_add s fid uid item).2.items.map (fun i => i.barcode) =
      cart.items.map (fun i => i.barcode) ∧
    (cart_add s fid uid item).2.subtotal =
      subtotalOf (pre ++ { ci with quantity := ci.quantity + item.quantity } :: post) := by
  have hm : mergeItems cart.items item =
      pre ++ { ci with quantity := ci.quantity + item.quantity } :: post := by
    rw [hsplit]
    exact mergeItems_merge pre ci post item hci hpre
  rw [cart_add_found s fid uid item cart hc]
  refine ⟨hm, ?_, ?_, ?_, ?_, by rw [hm]⟩ <;>
    · show (mergeItems cart.items item).map _ = _
      rw [hm, hsplit]
      simp [List.map_append]

def c10Stored : CartItem :=
  { product_id := "aaaaaaaaaaaaaaaaaaaaaaaa", title := "Pen", price := 3,
    quantity := 2, barcode := some "PEN123" }

def c10Other : CartItem :=
  { product_id := "bbbbbbbbbbbbbbbbbbbbbbbb", title := "Milk", price := 2,
    quantity := 1, barcode := none }

def c10Payload : CartItem :=
  { product_id := "aaaaaaaaaaaaaaaaaaaaaaaa", title := "Different", price := 99,
    quantity := 4, barcode := some "OTHER" }

def c10Cart : StoredCart :=
  { id := "cccccccccccccccccccccccc", user_id := "u1",
    items := [c10Other, c10Stored], status := "active", subtotal := 8 }

def c10S : DB := { users := [], products := [], carts := [c10Cart], orders := [] }

/-- Witness for C10: the payload carries a different title, price and barcode,
yet the merged line keeps the stored ones. -/
theorem cart_add_merge_frame_witness :
    (findActiveCart c10S "u1" = some c10Cart) ∧
    (c10Cart.items = [c10Other] ++ c10Stored :: []) ∧
    (c10Stored.product_id = c10Payload.product_id) ∧
    (∀ x ∈ [c10Other], x.product_id ≠ c10Payload.product_id) ∧
    ((cart_add c10S "ffffffffffffffffffffffff" "u1" c10Payload).2.items =
      [c10Other] ++
        { c10Stored with quantity := c10Stored.quantity + c10Payload.quantity } :: []) ∧
    ((cart_add c10S "ffffffffffffffffffffffff" "u1" c10Payload).2.items.map
        (fun i => i.title) = c10Cart.items.map (fun i => i.title)) :=
  ⟨by rfl, by rfl, by rfl, by decide,
   (cart_add_merge_frame c10S "ffffffffffffffffffffffff" "u1" c10Payload c10Cart
     [c10Other] c10Stored [] (by rfl) (by rfl) (by rfl) (by decide)).1,
   (cart_add_merge_frame c10S "ffffffffffffffffffffffff" "u1" c10Payload c10Cart
     [c10Other] c10Stored [] (by rfl) (by rfl) (by rfl) (by decide)).2.2.1⟩

/-- C2: a cart-add request merges into the first existing line with the same
product_id (no new line) or else appends the payload; in both cases the
returned subtotal is the sum of price times quantity over all resulting lines,
and the same items and subtotal are persisted onto the cart.  In particular
(third part), adding the same product twice with quantities 2 and 3 to a user
with no cart yields a single line with quantity 5 and subtotal price times 5. -/
theorem cart_add_merge_or_append (s : DB) (fid uid : String) (item : CartItem) :
    (∀ cart, findActiveCart s uid = some cart →
      (s.carts.map (fun c => c.id)).Nodup →
      ((cart_add s fid uid item).2.subtotal =
          subtotalOf (cart_add s fid uid item).2.items ∧
        (cart_add s fid uid item).1.carts =
          s.carts.map (fun c => if c.id = cart.id then
            { c with
              items := (cart_add s fid uid item).2.items,
              subtotal := (cart_add s fid uid item).2.subtotal } else c) ∧
        ((∀ ci ∈ cart.items, ci.product_id ≠ item.product_id) →
          (cart_add s fid uid item).2.items = cart.items ++ [item]) ∧
        ((∃ ci ∈ cart.items, ci.product_id = item.product_id) →
          (cart_add s fid uid item).2.items.length = cart.items.length ∧
          ∃ pre ci post, cart.items = pre ++ ci :: post ∧
            ci.product_id = item.product_id ∧
            (∀ x ∈ pre, x.product_id ≠ item.product_id) ∧
            (cart_add s fid uid item).2.items =
              pre ++ { ci with quantity := ci.quantity + item.quantity } :: post))) ∧
    (findActiveCart s uid = none → (∀ c ∈ s.carts, c.id ≠ fid) →
      ((cart_add s fid uid item).2.items = [item] ∧
        (cart_add s fid uid item).2.subtotal = subtotalOf [item] ∧
        (cart_add s fid uid item).1.carts = s.carts ++
          [{ id := fid, user_id := uid, items := [item], status := "active",
             subtotal := subtotalOf [item] }])) ∧
    (findActiveCart s uid = none → (∀ c ∈ s.carts, c.id ≠ fid) →
      ∀ (fid2 pid t : String) (pr : ℚ) (b : Option String),
        (cart_add (cart_add s fid uid
            { product_id := pid, title := t, price := pr, quantity := 2,
              barcode := b }).1 fid2 uid
          { product_id := pid, title := t, price := pr, quantity := 3,
            barcode := b }).2.items =
          [{ product_id := pid, title := t, price := pr, quantity := 5,
             barcode := b }] ∧
        (cart_add (cart_add s fid uid
            { product_id := pid, title := t, price := pr, quantity := 2,
              barcode := b }).1 fid2 uid
          { product_id := pid, title := t, price := pr, quantity := 3,
            barcode := b }).2.subtotal = pr * 5) := by
  refine ⟨?_, ?_, ?_⟩
  · intro cart hc hn
    rw [cart_add_found s fid uid item cart hc]
    refine ⟨rfl, ?_, ?_, ?_⟩
    · show updateFirst (fun c => c.id == cart.id) _ s.carts = _
      rw [updateFirst_eq_map (fun c => c.id) cart.id _ s.carts hn]
    · intro hnone
      exact mergeItems_append cart.items item hnone
    · intro hex
      obtain ⟨pre, ci, post, hsplit, hpid, hpre⟩ :=
        exists_first_match cart.items item.product_id hex
      have hm : mergeItems cart.items item =
          pre ++ { ci with quantity := ci.quantity + item.quantity } :: post := by
        rw [hsplit]
        exact mergeItems_merge pre ci post item hpid hpre
      constructor
      · show (mergeItems cart.items item).length = _
        rw [hm, hsplit]
        simp
      · exact ⟨pre, ci, post, hsplit, hpid, hpre, hm⟩
  · intro hc hfresh
    rw [cart_add_missing s fid uid item hc hfresh]
    exact ⟨rfl, rfl, rfl⟩
  · intro hc hfresh fid2 pid t pr b
    set i2 : CartItem :=
      { product_id := pid, title := t, price := pr, quantity := 2, barcode := b }
      with hi2
    set i3 : CartItem :=
      { product_id := pid, title := t, price := pr, quantity := 3, barcode := b }
      with hi3
    rw [cart_add_missing s fid uid i2 hc hfresh]
    set c1 : StoredCart :=
      { id := fid, user_id := uid, items := [i2], status := "active",
        subtotal := subtotalOf [i2] }
      with hc1
    have hfind1 : findActiveCart { s with carts := s.carts ++ [c1] } uid = some c1 := by
      unfold findActiveCart at hc ⊢
      show List.find? _ (s.carts ++ [c1]) = _
      rw [List.find?_append, hc,
        List.find?_cons_of_pos _ (by rw [hc1]; simp)]
      rfl
    rw [cart_add_found _ fid2 uid i3 c1 hfind1]
    constructor
    · show mergeItems [i2] i3 = _
      rw [mergeItems,
        if_pos (by exact beq_self_eq_true pid :
          (i2.product_id == i3.product_id) = true)]
      show [({ product_id := pid, title := t, price := pr,
               quantity := (2 : ℤ) + 3, barcode := b } : CartItem)] = _
      norm_num
    · show subtotalOf (mergeItems [i2] i3) = _
      rw [mergeItems,
        if_pos (by exact beq_self_eq_true pid :
          (i2.product_id == i3.product_id) = true)]
      show 0 + pr * (((2 : ℤ) + 3 : ℤ) : ℚ) = pr * 5
      push_cast
      ring

def c2Item : CartItem :=
  { product_id := "aaaaaaaaaaaaaaaaaaaaaaaa", title := "Pen", price := 3,
    quantity := 2, barcode := none }

def c2Payload : CartItem :=
  { product_id := "aaaaaaaaaaaaaaaaaaaaaaaa", title := "Pen", price := 3,
    quantity := 3, barcode := none }

def c2Cart : StoredCart :=
  { id := "cccccccccccccccccccccccc", user_id := "u1", items := [c2Item],
    status := "active", subtotal := 6 }

def c2S : DB := { users := [], products := [], carts := [c2Cart], orders := [] }

def c2Empty : DB := { users := [], products := [], carts := [], orders := [] }

/-- Witness for C2: a merge into an existing cart, an append into a fresh
cart, and the concrete quantity-2-then-3 double add. -/
theorem cart_add_merge_or_append_witness :
    (findActiveCart c2S "u1" = some c2Cart) ∧
    ((c2S.carts.map (fun c => c.id)).Nodup) ∧
    (∃ ci ∈ c2Cart.items, ci.product_id = c2Payload.product_id) ∧
    ((cart_add c2S "ffffffffffffffffffffffff" "u1" c2Payload).2.subtotal =
      subtotalOf (cart_add c2S "ffffffffffffffffffffffff" "u1" c2Payload).2.items) ∧
    ((cart_add c2S "ffffffffffffffffffffffff" "u1" c2Payload).2.items.length =
      c2Cart.items.length) ∧
    (findActiveCart c2Empty "u9" = none) ∧
    (∀ c ∈ c2Empty.carts, c.id ≠ "dddddddddddddddddddddddd") ∧
    ((cart_add c2Empty "dddddddddddddddddddddddd" "u9" c2Payload).2.items =
      [c2Payload]) ∧
    ((cart_add (cart_add c2Empty "dddddddddddddddddddddddd" "u9"
        { product_id := "aaaaaaaaaaaaaaaaaaaaaaaa", title := "Pen", price := 3,
          quantity := 2, barcode := none }).1 "eeeeeeeeeeeeeeeeeeeeeeee" "u9"
      { product_id := "aaaaaaaaaaaaaaaaaaaaaaaa", title := "Pen", price := 3,
        quantity := 3, barcode := none }).2.items =
      [{ product_id := "aaaaaaaaaaaaaaaaaaaaaaaa", title := "Pen", price := 3,
         quantity := 5, barcode := none }]) ∧
    ((cart_add (cart_add c2Empty "dddddddddddddddddddddddd" "u9"
        { product_id := "aaaaaaaaaaaaaaaaaaaaaaaa", title := "Pen", price := 3,
          quantity := 2, barcode := none }).1 "eeeeeeeeeeeeeeeeeeeeeeee" "u9"
      { product_id := "aaaaaaaaaaaaaaaaaaaaaaaa", title := "Pen", price := 3,
        quantity := 3, barcode := none }).2.subtotal = (3 : ℚ) * 5) := by
  refine ⟨by rfl, by decide, by decide, ?_, ?_, by rfl, by decide, ?_, ?_, ?_⟩
  · exact ((cart_add_merge_or_append c2S "ffffffffffffffffffffffff" "u1"
      c2Payload).1 c2Cart (by rfl) (by decide)).1
  · exact (((cart_add_merge_or_append c2S "ffffffffffffffffffffffff" "u1"
      c2Payload).1 c2Cart (by rfl) (by decide)).2.2.2 (by decide)).1
  · exact ((cart_add_merge_or_append c2Empty "dddddddddddddddddddddddd" "u9"
      c2Payload).2.1 (by rfl) (by decide)).1
  · exact ((cart_add_merge_or_append c2Empty "dddddddddddddddddddddddd" "u9"
      c2Payload).2.2 (by rfl) (by decide) "eeeeeeeeeeeeeeeeeeeeeeee"
      "aaaaaaaaaaaaaaaaaaaaaaaa" "Pen" 3 none).1
  · exact ((cart_add_merge_or_append c2Empty "dddddddddddddddddddddddd" "u9"
      c2Payload).2.2 (by rfl) (by decide) "eeeeeeeeeeeeeeeeeeeeeeee"
      "aaaaaaaaaaaaaaaaaaaaaaaa" "Pen" 3 none).2

/-- C1: checkout of a non-empty active cart (whose item references are well
formed, quantities positive, and ids unique) returns ok with total equal to
the sum of price times quantity; it appends exactly one order with status
"pending" and payment_method "gpay" copying the cart's items; it decrements
each referenced product's stock by the charged quantity with no floor (the
subtraction is over ℤ, so stock may go negative); it marks the cart
"checked_out"; and a second checkout for the same user then fails with the
"Cart is empty" precondition error. -/
theorem checkout_correct (s : DB) (fid uid : String) (cart : StoredCart)
    (hc : findActiveCart s uid = some cart)
    (hne : cart.items ≠ [])
    (hv : ∀ i ∈ cart.items, isValidOid i.product_id = true)
    (hq : ∀ i ∈ cart.items, 1 ≤ i.quantity)
    (hpn : (s.products.map (fun p => p.id)).Nodup)
    (hcn : (s.carts.map (fun c => c.id)).Nodup)
    (huniq : ∀ c ∈ s.carts, c.user_id = uid → c.status = "active" → c = cart) :
    checkout s fid uid =
      ({ users := s.users,
         products := (s.products.map
           (fun p => { p with stock := p.stock - qtyFor p.id cart.items })),
         carts := (s.carts.map (fun c => if c.id = cart.id then
           { c with status := "checked_out" } else c)),
         orders := (s.orders ++
           [{ id := fid, user_id := uid, cart_id := cart.id, items := cart.items,
              total := subtotalOf cart.items, status := "pending",
              payment_method := some "gpay" }]) },
       .ok (fid, subtotalOf cart.items)) ∧
    ∀ fid2, (checkout (checkout s fid uid).1 fid2 uid).2 =
      .error (400, "Cart is empty") := by
  have hd := decStocks_ok cart.items
    { s with orders := s.orders ++
      [{ id := fid, user_id := uid, cart_id := cart.id, items := cart.items,
         total := subtotalOf cart.items, status := "pending",
         payment_method := some "gpay" }] } hv (by exact hpn)
  have hmain : checkout s fid uid =
      ({ users := s.users,
         products := (s.products.map
           (fun p => { p with stock := p.stock - qtyFor p.id cart.items })),
         carts := (s.carts.map (fun c => if c.id = cart.id then
           { c with status := "checked_out" } else c)),
         orders := (s.orders ++
           [{ id := fid, user_id := uid, cart_id := cart.id, items := cart.items,
              total := subtotalOf cart.items, status := "pending",
              payment_method := some "gpay" }]) },
       .ok (fid, subtotalOf cart.items)) := by
    simp only [checkout, hc, hd]
    rw [if_neg hne,
      updateFirst_eq_map (fun c => c.id) cart.id _ s.carts (by exact hcn)]
  refine ⟨hmain, ?_⟩
  intro fid2
  set s2 := (checkout s fid uid).1 with hs2
  have hfind : findActiveCart s2 uid = none := by
    rw [hs2, hmain]
    unfold findActiveCart
    rw [List.find?_eq_none]
    intro x hx
    simp only [List.mem_map] at hx
    obtain ⟨c, hcm, rfl⟩ := hx
    by_cases hid : c.id = cart.id
    · rw [if_pos hid]
      intro hpred
      rw [Bool.and_eq_true, beq_iff_eq, beq_iff_eq] at hpred
      exact absurd hpred.2 (show ¬("checked_out" = "active") by decide)
    · rw [if_neg hid]
      intro hpred
      rw [Bool.and_eq_true, beq_iff_eq, beq_iff_eq] at hpred
      exact hid (by rw [huniq c hcm hpred.1 hpred.2])
  simp only [checkout, hfind]

def c1Item1 : CartItem :=
  { product_id := "aaaaaaaaaaaaaaaaaaaaaaaa", title := "Pen", price := 3,
    quantity := 2, barcode := some "PEN123" }

def c1Item2 : CartItem :=
  { product_id := "bbbbbbbbbbbbbbbbbbbbbbbb", title := "Milk", price := 2,
    quantity := 1, barcode := none }

def c1Prod1 : StoredProduct :=
  { id := "aaaaaaaaaaaaaaaaaaaaaaaa", title := "Pen", description := none,
    price := 3, barcode := some "PEN123", stock := 1, category := none,
    in_stock := true }

def c1Prod2 : StoredProduct :=
  { id := "bbbbbbbbbbbbbbbbbbbbbbbb", title := "Milk", description := none,
    price := 2, barcode := none, stock := 50, category := none,
    in_stock := true }

def c1Cart : StoredCart :=
  { id := "cccccccccccccccccccccccc", user_id := "u1",
    items := [c1Item1, c1Item2], status := "active", subtotal := 8 }

def c1S : DB :=
  { users := [], products := [c1Prod1, c1Prod2], carts := [c1Cart], orders := [] }

/-- Witness for C1: a two-item cart; the Pen's stock 1 is driven to -1 (no
floor), the Milk's 50 to 49, and the second checkout fails. -/
theorem checkout_correct_witness :
    (findActiveCart c1S "u1" = some c1Cart) ∧
    (c1Cart.items ≠ []) ∧
    (∀ i ∈ c1Cart.items, isValidOid i.product_id = true) ∧
    (∀ i ∈ c1Cart.items, 1 ≤ i.quantity) ∧
    ((c1S.products.map (fun p => p.id)).Nodup) ∧
    ((c1S.carts.map (fun c => c.id)).Nodup) ∧
    (∀ c ∈ c1S.carts, c.user_id = "u1" → c.status = "active" → c = c1Cart) ∧
    (checkout c1S "dddddddddddddddddddddddd" "u1" =
      ({ users := c1S.users,
         products := (c1S.products.map
           (fun p => { p with stock := p.stock - qtyFor p.id c1Cart.items })),
         carts := (c1S.carts.map (fun c => if c.id = c1Cart.id then
           { c with status := "checked_out" } else c)),
         orders := (c1S.orders ++
           [{ id := "dddddddddddddddddddddddd", user_id := "u1",
              cart_id := c1Cart.id, items := c1Cart.items,
              total := subtotalOf c1Cart.items, status := "pending",
              payment_method := some "gpay" }]) },
       .ok ("dddddddddddddddddddddddd", subtotalOf c1Cart.items))) ∧
    ((checkout (checkout c1S "dddddddddddddddddddddddd" "u1").1
        "eeeeeeeeeeeeeeeeeeeeeeee" "u1").2 = .error (400, "Cart is empty")) ∧
    ((checkout c1S "dddddddddddddddddddddddd" "u1").1.products.map
      (fun p => p.stock) = [-1, 49]) := by
  refine ⟨by rfl, by decide, by decide, by decide, by decide, by decide,
    by decide, ?_, ?_, by rfl⟩
  · exact (checkout_correct c1S "dddddddddddddddddddddddd" "u1" c1Cart (by rfl)
      (by decide) (by decide) (by decide) (by decide) (by decide) (by decide)).1
  · exact (checkout_correct c1S "dddddddddddddddddddddddd" "u1" c1Cart (by rfl)
      (by decide) (by decide) (by decide) (by decide) (by decide) (by decide)).2
      "eeeeeeeeeeeeeeeeeeeeeeee"

def c4Good : CartItem :=
  { product_id := "aaaaaaaaaaaaaaaaaaaaaaaa", title := "Pen", price := 3,
    quantity := 2, barcode := none }

def c4Bad : CartItem :=
  { product_id := "not-an-object-id", title := "Milk", price := 2,
    quantity := 1, barcode := none }

def c4Prod : StoredProduct :=
  { id := "aaaaaaaaaaaaaaaaaaaaaaaa", title := "Pen", description := none,
    price := 3, barcode := none, stock := 1, category := none,
    in_stock := true }

def c4Cart : StoredCart :=
  { id := "cccccccccccccccccccccccc", user_id := "u1",
    items := [c4Good, c4Bad], status := "active", subtotal := 8 }

def c4S : DB :=
  { users := [], products := [c4Prod], carts := [c4Cart], orders := [] }

/-- C4 counterexample: checkout of a cart holding an item with a malformed
product_id fails with the 400 "Invalid id" client error, yet by then the order
has been inserted and the first item's stock decrement applied — the failing
request did mutate persisted state (and left the cart still "active"). -/
theorem checkout_mutates_despite_invalid_id :
    (checkout c4S "dddddddddddddddddddddddd" "u1").2 = .error (400, "Invalid id") ∧
    c4S.orders.length = 0 ∧
    (checkout c4S "dddddddddddddddddddddddd" "u1").1.orders.length = 1 ∧
    c4S.products.map (fun p => p.stock) = [1] ∧
    (checkout c4S "dddddddddddddddddddddddd" "u1").1.products.map
      (fun p => p.stock) = [-1] ∧
    (checkout c4S "dddddddddddddddddddddddd" "u1").1.carts.map
      (fun c => c.status) = ["active"] :=
  ⟨by rfl, by rfl, by rfl, by rfl, by rfl, by rfl⟩

/-- C4 amended: request-body validation and checkout's empty-cart precondition
are indeed checked before any write; but a malformed product_id inside the
cart is only detected in checkout's stock loop, after the order has been
inserted and the decrements for the earlier items applied, so that failing
request leaves partial state behind (order persisted, some stock decremented,
cart left "active"). -/
theorem checkout_invalid_item_writes_order (s : DB) (fid uid : String)
    (cart : StoredCart) (pre : List CartItem) (bad : CartItem)
    (post : List CartItem)
    (hc : findActiveCart s uid = some cart)
    (hsplit : cart.items = pre ++ bad :: post)
    (hvpre : ∀ i ∈ pre, isValidOid i.product_id = true)
    (hbad : isValidOid bad.product_id = false)
    (hpn : (s.products.map (fun p => p.id)).Nodup) :
    checkout s fid uid =
      ({ users := s.users,
         products := (s.products.map
           (fun p => { p with stock := p.stock - qtyFor p.id pre })),
         carts := s.carts,
         orders := (s.orders ++
           [{ id := fid, user_id := uid, cart_id := cart.id,
              items := pre ++ bad :: post,
              total := subtotalOf (pre ++ bad :: post), status := "pending",
              payment_method := some "gpay" }]) },
       .error (400, "Invalid id")) := by
  have hne : cart.items ≠ [] := by
    rw [hsplit]
    simp
  simp only [checkout, hc]
  rw [if_neg hne, hsplit,
    decStocks_fail pre bad post _ hvpre hbad (by exact hpn)]

/-- Witness for the amended C4, on a two-item cart whose second item has the
malformed product_id: the order is written and the Pen's stock decremented
before the failure. -/
theorem checkout_invalid_item_writes_order_witness :
    (findActiveCart c4S "u1" = some c4Cart) ∧
    (c4Cart.items = [c4Good] ++ c4Bad :: []) ∧
    (∀ i ∈ [c4Good], isValidOid i.product_id = true) ∧
    (isValidOid c4Bad.product_id = false) ∧
    ((c4S.products.map (fun p => p.id)).Nodup) ∧
    checkout c4S "dddddddddddddddddddddddd" "u1" =
      ({ users := c4S.users,
         products := (c4S.products.map
           (fun p => { p with stock := p.stock - qtyFor p.id [c4Good] })),
         carts := c4S.carts,
         orders := (c4S.orders ++
           [{ id := "dddddddddddddddddddddddd", user_id := "u1",
              cart_id := c4Cart.id, items := [c4Good] ++ c4Bad :: [],
              total := subtotalOf ([c4Good] ++ c4Bad :: []), status := "pending",
              payment_method := some "gpay" }]) },
       .error (400, "Invalid id")) :=
  ⟨by rfl, by rfl, by decide, by decide, by decide,
   checkout_invalid_item_writes_order c4S "dddddddddddddddddddddddd" "u1" c4Cart
     [c4Good] c4Bad [] (by rfl) (by rfl) (by decide) (by decide) (by decide)⟩
